import Mathlib

/-!
Shallow embedding of the availability & booking engine of the Aponti backend
(FastAPI/SQLAlchemy).  Datetimes are modelled as integer minutes on a global
timeline (`Int`); wall-clock times of day as minutes since midnight (`Nat`).
Booking statuses are the literal strings stored in the `status` column.

Embedded source locations:
  * `app/crud/crud_booking.py`   — `create_booking`, `cancel_booking`,
    `get_available_slots` (the filtered-list read model);
  * `app/routers/slots.py`       — `time_to_minutes`, `generate_time_slots`,
    `is_slot_available`, `get_available_slots` (the boolean grid read model);
  * `app/routers/booking.py`     — `create_new_booking` (time validation) and
    `get_available_times` (the half-hour-mark read model).
Database rows are lists of records; SQLAlchemy `.first()` is `List.find?`,
`.all()` with a filter is `List.filter`.  Identity resolution (user/barber
lookups) is elided: callers pass the already-resolved records.
-/

namespace Aponti

/-- Booking row (`app/models/models.py`, class `Booking`): the columns the
booking engine reads.  `start_time`/`end_time` are minutes on the timeline. -/
structure Booking where
  id : Nat
  barber_id : Nat
  service_id : Nat
  start_time : Int
  end_time : Int
  status : String
deriving Repr, DecidableEq

/-- Service row (`app/models/models.py`, class `Service`): `duration` is the
positive integer minutes column. -/
structure Service where
  id : Nat
  barber_id : Nat
  duration : Nat
deriving Repr, DecidableEq

/-- Working-hours row (`app/models/models.py`, class `WorkingHours`):
`start_time`/`end_time` are wall-clock minutes since midnight. -/
structure WorkingHours where
  barber_id : Nat
  day_of_week : Nat
  start_time : Nat
  end_time : Nat
  is_working : Bool
deriving Repr, DecidableEq

/-- The overlap test of the spec (§4.1 `intervalsOverlap`), as it appears
inline at every call site: `aStart < bEnd AND aEnd > bStart`. -/
def intervalsOverlap (aStart aEnd bStart bEnd : Int) : Bool :=
  aStart < bEnd && aEnd > bStart

/-- Input of a booking creation request (fields of `BookingCreate` the engine
uses). -/
structure BookingRequest where
  barber_id : Nat
  service_id : Nat
  start_time : Int
deriving Repr, DecidableEq

/-- The service lookup `db.query(Service).filter(Service.id == ...).first()`. -/
def findService (services : List Service) (service_id : Nat) : Option Service :=
  services.find? (fun s => s.id == service_id)

/-- The conflict filter of `crud_booking.create_booking` (lines 31-36):
same barber, `start_time < end_time` of the new slot, `end_time > start_time`
of the new slot, and status equal to `"confirmed"`. -/
def createConflict (barber_id : Nat) (start_time end_time : Int) (b : Booking) : Bool :=
  b.barber_id == barber_id && b.start_time < end_time && b.end_time > start_time &&
    b.status == "confirmed"

/-- The row inserted by `crud_booking.create_booking`: status is set to
`"confirmed"`, `end_time` to `start_time + service.duration`. -/
def newBooking (new_id : Nat) (req : BookingRequest) (end_time : Int) : Booking :=
  { id := new_id, barber_id := req.barber_id, service_id := req.service_id,
    start_time := req.start_time, end_time := end_time, status := "confirmed" }

/-- Embedding of `crud_booking.create_booking`: resolve the service, compute
`end_time = start_time + duration`, fail when a conflicting row exists,
otherwise append the new confirmed row. -/
def create_booking (services : List Service) (store : List Booking)
    (new_id : Nat) (req : BookingRequest) : Except String (List Booking) :=
  match findService services req.service_id with
  | none => Except.error "Service not found"
  | some service =>
      match store.find? (createConflict req.barber_id req.start_time
          (req.start_time + (service.duration : Int))) with
      | some _ => Except.error "This time slot is already booked"
      | none =>
          Except.ok (store ++
            [newBooking new_id req (req.start_time + (service.duration : Int))])

/-- Status update performed by `crud_booking.cancel_booking`:
`booking.status = "cancelled"`, all other columns untouched. -/
def setCancelled (b : Booking) : Booking :=
  { b with status := "cancelled" }

/-- Update of the first row matching the id (SQLAlchemy `.first()` followed by
a mutation of that row). -/
def cancelFirst : List Booking → Nat → List Booking
  | [], _ => []
  | b :: rest, booking_id =>
      if b.id == booking_id then setCancelled b :: rest
      else b :: cancelFirst rest booking_id

/-- Embedding of `crud_booking.cancel_booking`: `None` when the id is absent
(store unchanged), otherwise the refreshed cancelled row and the new store. -/
def cancel_booking (store : List Booking) (booking_id : Nat) :
    Option Booking × List Booking :=
  match store.find? (fun b => b.id == booking_id) with
  | none => (none, store)
  | some b => (some (setCancelled b), cancelFirst store booking_id)

/-- Active booking in the sense of the spec glossary: status pending or
confirmed. -/
def isActive (b : Booking) : Bool :=
  b.status == "pending" || b.status == "confirmed"

/-- The two booking-store operations of `app/crud/crud_booking.py` reachable
from the routers: creation and cancellation. -/
inductive BookingOp where
  | create (new_id : Nat) (req : BookingRequest)
  | cancel (booking_id : Nat)
deriving Repr, DecidableEq

/-- One operation applied to the store; a failed creation raises before any
insert, so it leaves the store unchanged. -/
def applyOp (services : List Service) (store : List Booking) :
    BookingOp → List Booking
  | BookingOp.create new_id req =>
      match create_booking services store new_id req with
      | Except.ok store2 => store2
      | Except.error _ => store
  | BookingOp.cancel booking_id => (cancel_booking store booking_id).2

/-- A sequence of operations run from the empty booking store. -/
def runOps (services : List Service) (ops : List BookingOp) : List Booking :=
  ops.foldl (applyOp services) []

/-- No two bookings at distinct positions of the store are both active, for
the same barber, with overlapping half-open intervals. -/
def NoActiveOverlap (store : List Booking) : Prop :=
  store.Pairwise (fun a b =>
    isActive a = true → isActive b = true → a.barber_id = b.barber_id →
    intervalsOverlap a.start_time a.end_time b.start_time b.end_time = false)

/-- Every status in the store was written by `create_booking` or
`cancel_booking`. -/
def CreatedStatuses (store : List Booking) : Prop :=
  ∀ b ∈ store, b.status = "confirmed" ∨ b.status = "cancelled"

/-- Loop body of `slots.generate_time_slots`: while
`current_minutes + service_duration <= end_minutes`, emit `current_minutes`
and advance by `slot_interval`.  The fuel bounds the iteration count; with
`slot_interval ≥ 1` a fuel of `end_minutes + 1 - start` is never exhausted. -/
def gtsLoop : Nat → Nat → Nat → Nat → Nat → List Nat
  | 0, _, _, _, _ => []
  | fuel + 1, current_minutes, end_minutes, service_duration, slot_interval =>
      if current_minutes + service_duration ≤ end_minutes then
        current_minutes ::
          gtsLoop fuel (current_minutes + slot_interval) end_minutes
            service_duration slot_interval
      else []

/-- Embedding of `slots.generate_time_slots` (times already converted to
minutes since midnight by `time_to_minutes`).  The routers always call it
with the default `slot_interval = 15`. -/
def generate_time_slots (start_time end_time service_duration slot_interval : Nat) :
    List Nat :=
  gtsLoop (end_time + 1 - start_time) start_time end_time service_duration
    slot_interval

/-- The overlap filter of `slots.is_slot_available` (lines 70-77): same
barber, status neither `"cancelled"` nor `"rejected"`, and
`start_time < slot_end AND end_time > slot_start`. -/
def blocksSlot (worker_id : Nat) (slot_start slot_end : Int) (b : Booking) : Bool :=
  b.barber_id == worker_id && b.status != "cancelled" && b.status != "rejected" &&
    b.start_time < slot_end && b.end_time > slot_start

/-- Embedding of `slots.is_slot_available`: true iff no stored booking passes
the `blocksSlot` filter. -/
def is_slot_available (worker_id : Nat) (slot_start slot_end : Int)
    (store : List Booking) : Bool :=
  (store.find? (blocksSlot worker_id slot_start slot_end)).isNone

/-- The working-hours query shared by `slots.get_available_slots` and
`crud_booking.get_available_slots`: barber, day of week, `is_working == True`,
`.first()`. -/
def findWorkingRule (rules : List WorkingHours) (barber_id day_of_week : Nat) :
    Option WorkingHours :=
  rules.find? (fun r =>
    r.barber_id == barber_id && r.day_of_week == day_of_week && r.is_working)

/-- Embedding of the slot grid built by `slots.get_available_slots`
(lines 136-157): candidate starts from `generate_time_slots` at the default
15-minute interval, each mapped to
`(slot_start, slot_end, is_slot_available ...)` on the queried date.
`dayStart` is midnight of the queried date on the timeline; worker and
service resolution is elided (the caller passes `service.duration`). -/
def slots_get_available_slots (store : List Booking) (rules : List WorkingHours)
    (worker_id duration day_of_week : Nat) (dayStart : Int) :
    List (Int × Int × Bool) :=
  match findWorkingRule rules worker_id day_of_week with
  | none => []
  | some wh =>
      (generate_time_slots wh.start_time wh.end_time duration 15).map
        (fun (t : Nat) =>
          let slot_start := dayStart + (t : Int)
          let slot_end := slot_start + (duration : Int)
          (slot_start, slot_end,
            is_slot_available worker_id slot_start slot_end store))

/-- Day filter of `crud_booking.get_available_slots` (lines 79-84): same
barber, `start_time` within `[start_of_day, end_of_day]`, status
`"confirmed"`.  With minute-grained timestamps `end_of_day`
(23:59:59.999999) admits exactly the starts `≤ dayStart + 1439`. -/
def crudDayBookings (store : List Booking) (barber_id : Nat) (dayStart : Int) :
    List Booking :=
  store.filter (fun b =>
    b.barber_id == barber_id && dayStart ≤ b.start_time &&
      b.start_time ≤ dayStart + 1439 && b.status == "confirmed")

/-- Loop of `crud_booking.get_available_slots` (lines 91-100): while
`current_time + slot_duration <= end_time`, keep the start iff no loaded
booking satisfies `current_time < booking.end_time AND
current_time + slot_duration > booking.start_time`; advance by 15 minutes. -/
def crudSlotLoop : Nat → Int → Int → Int → List Booking → List Int
  | 0, _, _, _, _ => []
  | fuel + 1, current_time, end_time, slot_duration, bookings =>
      if current_time + slot_duration ≤ end_time then
        (if bookings.all (fun b =>
            !(current_time < b.end_time && current_time + slot_duration > b.start_time))
          then [current_time] else []) ++
          crudSlotLoop fuel (current_time + 15) end_time slot_duration bookings
      else []

/-- Embedding of `crud_booking.get_available_slots` (the filtered list of
available start datetimes; the surrounding `AvailableSlots` payload and the
service lookup are elided, the caller passes `service.duration`). -/
def crud_get_available_slots (store : List Booking) (rules : List WorkingHours)
    (barber_id duration day_of_week : Nat) (dayStart : Int) : List Int :=
  match findWorkingRule rules barber_id day_of_week with
  | none => []
  | some wh =>
      let bookings := crudDayBookings store barber_id dayStart
      crudSlotLoop (wh.end_time + 1 - wh.start_time)
        (dayStart + (wh.start_time : Int)) (dayStart + (wh.end_time : Int))
        (duration : Int) bookings

/-- Candidate generation of `booking.get_available_times` (lines 189-196):
for each hour from `working_start` to `working_end` inclusive, the marks
`hour:00` and `hour:30`, except that on the final hour the `:30` mark is cut
by the `break`.  Values are minutes since midnight. -/
def halfHourMarks (working_start working_end : Nat) : List Nat :=
  (List.range (working_end + 1 - working_start)).flatMap (fun i =>
    let hour := working_start + i
    if hour == working_end then [hour * 60] else [hour * 60, hour * 60 + 30])

/-- Conflict test of `booking.get_available_times` (lines 204-211): the
stored booking's end is recomputed as `booking.start_time + service.duration`
of the QUERIED service; the stored `end_time` column is not read. -/
def slotConflicts (duration : Nat) (slot_datetime : Int) (b : Booking) : Bool :=
  slot_datetime < b.start_time + (duration : Int) &&
    slot_datetime + (duration : Int) > b.start_time

/-- Day filter of `booking.get_available_times` (lines 174-179): same barber,
`start_time` within the day, status not `"cancelled"` (anything else blocks). -/
def timesDayBookings (store : List Booking) (barber_id : Nat) (dayStart : Int) :
    List Booking :=
  store.filter (fun b =>
    b.barber_id == barber_id && dayStart ≤ b.start_time &&
      b.start_time ≤ dayStart + 1439 && b.status != "cancelled")

/-- Embedding of `booking.get_available_times` (lines 127-217): the
working-hours query has no `is_working` filter (checked afterwards); the
start and end hours are truncated via `.hour`; each half-hour mark is kept
when it is not before `now` and conflicts with no loaded booking under
`slotConflicts`.  Returns the kept marks (the `"HH:MM"` strings) as minutes
since midnight; `dayStart` is midnight of the queried date. -/
def get_available_times (store : List Booking) (rules : List WorkingHours)
    (barber_id duration day_of_week : Nat) (dayStart now : Int) : List Nat :=
  match rules.find? (fun r =>
      r.barber_id == barber_id && r.day_of_week == day_of_week) with
  | none => []
  | some wh =>
      if wh.is_working = false then []
      else
        let working_start := wh.start_time / 60
        let working_end := wh.end_time / 60
        let existing := timesDayBookings store barber_id dayStart
        (halfHourMarks working_start working_end).filterMap (fun (mark : Nat) =>
          let slot_datetime := dayStart + (mark : Int)
          if slot_datetime < now then none
          else if existing.all (fun b => !slotConflicts duration slot_datetime b)
          then some mark else none)

/-- Service-ownership query of `booking.create_new_booking` (lines 37-40):
the service must exist AND belong to the requested barber. -/
def findBarberService (services : List Service) (service_id barber_id : Nat) :
    Option Service :=
  services.find? (fun s => s.id == service_id && s.barber_id == barber_id)

/-- Embedding of the router `booking.create_new_booking` (barber-identity
resolution elided): service-ownership check, then the past-time check
`if start_time < now: raise`, then the crud `create_booking`. -/
def create_new_booking (services : List Service) (store : List Booking)
    (new_id : Nat) (req : BookingRequest) (now : Int) :
    Except String (List Booking) :=
  match findBarberService services req.service_id req.barber_id with
  | none => Except.error "Service not found for this barber"
  | some _ =>
      if req.start_time < now then
        Except.error "Booking time must be in the future"
      else create_booking services store new_id req

/-! Concrete rows used to evaluate the definitions. -/

/-- A 30-minute service of barber 1. -/
def demoService : Service := ⟨1, 1, 30⟩

/-- A pending booking of barber 1 on [600, 630). -/
def pendingBooking : Booking := ⟨1, 1, 1, 600, 630, "pending"⟩

/-- A completed booking of barber 1 on [600, 630). -/
def completedBooking : Booking := ⟨1, 1, 1, 600, 630, "completed"⟩

/-- A confirmed booking of barber 1 on [600, 630). -/
def confirmedBooking : Booking := ⟨1, 1, 1, 600, 630, "confirmed"⟩

/-- A confirmed booking of barber 1 on [600, 660): its own service lasts 60
minutes, twice the 30 minutes of `demoService`. -/
def longBooking : Booking := ⟨1, 1, 2, 600, 660, "confirmed"⟩

/-- A confirmed booking of barber 1 on [10, 20). -/
def lateBooking : Booking := ⟨1, 1, 1, 10, 20, "confirmed"⟩

/-- A confirmed booking of barber 1 on [0, 10). -/
def earlyBooking : Booking := ⟨2, 1, 1, 0, 10, "confirmed"⟩

/-- Barber 1 works Monday 09:00-17:00. -/
def mondayRule : WorkingHours := ⟨1, 0, 540, 1020, true⟩

/-- Barber 1 works Monday 10:00-11:00. -/
def shortRule : WorkingHours := ⟨1, 0, 600, 660, true⟩

/-! Theorems. -/

theorem isActive_setCancelled (b : Booking) : isActive (setCancelled b) = false :=
  rfl

theorem create_booking_ok_inv (services : List Service) (store : List Booking)
    (new_id : Nat) (req : BookingRequest) (store2 : List Booking)
    (h : create_booking services store new_id req = Except.ok store2) :
    ∃ svc, findService services req.service_id = some svc ∧
      store.find? (createConflict req.barber_id req.start_time
        (req.start_time + (svc.duration : Int))) = none ∧
      store2 = store ++
        [newBooking new_id req (req.start_time + (svc.duration : Int))] := by
  unfold create_booking at h
  split at h
  next => cases h
  next svc hf =>
    split at h
    next => cases h
    next hc =>
      injection h with h2
      exact ⟨svc, hf, hc, h2.symm⟩

theorem create_booking_preserves (services : List Service) (store : List Booking)
    (new_id : Nat) (req : BookingRequest) (store2 : List Booking)
    (hok : create_booking services store new_id req = Except.ok store2)
    (hst : CreatedStatuses store) (hinv : NoActiveOverlap store) :
    CreatedStatuses store2 ∧ NoActiveOverlap store2 := by
  obtain ⟨svc, hf, hc, hstore⟩ :=
    create_booking_ok_inv services store new_id req store2 hok
  subst hstore
  constructor
  · intro b hb
    rcases List.mem_append.mp hb with hb | hb
    · exact hst b hb
    · rw [List.mem_singleton] at hb
      subst hb
      left
      rfl
  · unfold NoActiveOverlap
    rw [List.pairwise_append]
    refine ⟨hinv, List.pairwise_singleton _ _, ?_⟩
    intro a ha b hb
    rw [List.mem_singleton] at hb
    subst hb
    intro hactA hactB hbar
    have hall := List.find?_eq_none.mp hc a ha
    rcases hst a ha with hconf | hcanc
    · simp only [newBooking] at hbar
      simp [createConflict, hconf, hbar] at hall
      simp [intervalsOverlap, newBooking]
      omega
    · simp [isActive, hcanc] at hactA

theorem mem_cancelFirst (store : List Booking) (booking_id : Nat) (y : Booking)
    (hy : y ∈ cancelFirst store booking_id) :
    ∃ z ∈ store, y = z ∨ y = setCancelled z := by
  induction store with
  | nil => cases hy
  | cons b rest ih =>
      unfold cancelFirst at hy
      split at hy
      · rcases List.mem_cons.mp hy with h | h
        · exact ⟨b, List.mem_cons_self b rest, Or.inr h⟩
        · exact ⟨y, List.mem_cons_of_mem b h, Or.inl rfl⟩
      · rcases List.mem_cons.mp hy with h | h
        · exact ⟨b, List.mem_cons_self b rest, Or.inl h⟩
        · obtain ⟨z, hz, hzy⟩ := ih h
          exact ⟨z, List.mem_cons_of_mem b hz, hzy⟩

theorem cancelFirst_statuses (store : List Booking) (booking_id : Nat)
    (h : CreatedStatuses store) : CreatedStatuses (cancelFirst store booking_id) := by
  intro y hy
  obtain ⟨z, hz, hzy | hzy⟩ := mem_cancelFirst store booking_id y hy
  · subst hzy
    exact h _ hz
  · subst hzy
    right
    rfl

theorem cancelFirst_no_overlap (store : List Booking) (booking_id : Nat)
    (h : NoActiveOverlap store) : NoActiveOverlap (cancelFirst store booking_id) := by
  induction store with
  | nil => exact List.Pairwise.nil
  | cons b rest ih =>
      obtain ⟨hb, hrest⟩ := List.pairwise_cons.mp h
      unfold cancelFirst
      split
      · refine List.pairwise_cons.mpr ⟨?_, hrest⟩
        intro y hy hact
        rw [isActive_setCancelled] at hact
        cases hact
      · refine List.pairwise_cons.mpr ⟨?_, ih hrest⟩
        intro y hy hactb hacty hbar
        obtain ⟨z, hz, hzy | hzy⟩ := mem_cancelFirst rest booking_id y hy
        · subst hzy
          exact hb _ hz hactb hacty hbar
        · subst hzy
          rw [isActive_setCancelled] at hacty
          cases hacty

theorem applyOp_preserves (services : List Service) (store : List Booking)
    (op : BookingOp) (h1 : CreatedStatuses store) (h2 : NoActiveOverlap store) :
    CreatedStatuses (applyOp services store op) ∧
      NoActiveOverlap (applyOp services store op) := by
  cases op with
  | create new_id req =>
      cases hc : create_booking services store new_id req with
      | ok store2 =>
          have hp := create_booking_preserves services store new_id req store2 hc h1 h2
          simpa [applyOp, hc] using hp
      | error e => simpa [applyOp, hc] using ⟨h1, h2⟩
  | cancel booking_id =>
      simp only [applyOp, cancel_booking]
      cases hf : store.find? (fun b => b.id == booking_id) with
      | none => exact ⟨h1, h2⟩
      | some b =>
          exact ⟨cancelFirst_statuses store booking_id h1,
            cancelFirst_no_overlap store booking_id h2⟩

theorem runOps_preserves (services : List Service) (ops : List BookingOp) :
    ∀ store, CreatedStatuses store → NoActiveOverlap store →
      CreatedStatuses (ops.foldl (applyOp services) store) ∧
        NoActiveOverlap (ops.foldl (applyOp services) store) := by
  induction ops with
  | nil => exact fun store h1 h2 => ⟨h1, h2⟩
  | cons op rest ih =>
      intro store h1 h2
      obtain ⟨h1a, h2a⟩ := applyOp_preserves services store op h1 h2
      exact ih (applyOp services store op) h1a h2a

/-- C1: after any sequence of `create_booking` / `cancel_booking` operations
starting from the empty booking store, no two bookings whose status is
pending or confirmed have overlapping `[start_time, end_time)` intervals
(the per-barber scoping is part of `NoActiveOverlap`). -/
theorem C1_no_active_overlap (services : List Service) (ops : List BookingOp) :
    NoActiveOverlap (runOps services ops) :=
  (runOps_preserves services ops [] (fun b hb => absurd hb (List.not_mem_nil b))
    List.Pairwise.nil).2

/-- C4: the overlap test has half-open semantics: for `t0 < T < t1` the
intervals `[t0, T)` and `[T, t1)` do not overlap, a booking on `[T, t1)`
does not block the slot `[t0, T)` in the availability check nor conflict
with it in the creation check, and symmetrically for a booking on
`[t0, T)` against the slot `[T, t1)`: back-to-back bookings are admitted
at both call sites. -/
theorem C4_half_open_boundaries (t0 T t1 : Int) (h1 : t0 < T) (h2 : T < t1)
    (b c : Booking) (w : Nat)
    (hbs : b.start_time = T) (hbe : b.end_time = t1)
    (hcs : c.start_time = t0) (hce : c.end_time = T) :
    intervalsOverlap t0 T T t1 = false ∧
    is_slot_available w t0 T [b] = true ∧
    is_slot_available w T t1 [c] = true ∧
    createConflict w t0 T b = false ∧
    createConflict w T t1 c = false := by
  refine ⟨?_, ?_, ?_, ?_, ?_⟩
  · simp [intervalsOverlap]
  · simp [is_slot_available, blocksSlot, List.find?, hbs]
  · simp [is_slot_available, blocksSlot, List.find?, hce]
  · simp [createConflict, hbs]
  · simp [createConflict, hce]

/-- C4 witness: the boundary instant 10 between `[0, 10)` and `[10, 20)`. -/
theorem C4_half_open_witness :
    intervalsOverlap 0 10 10 20 = false ∧
    is_slot_available 1 0 10 [lateBooking] = true ∧
    is_slot_available 1 10 20 [earlyBooking] = true ∧
    createConflict 1 0 10 lateBooking = false ∧
    createConflict 1 10 20 earlyBooking = false :=
  C4_half_open_boundaries 0 10 20 (by decide) (by decide)
    lateBooking earlyBooking 1 rfl rfl rfl rfl

/-- C10: the conflict test of `get_available_times` never reads the stored
`end_time` column (bookings equal up to `end_time` decide identically), and
on the booking `[600, 660)` of a 60-minute service queried with a 30-minute
service, the slot `[630, 660)` is judged free although the stored interval
overlaps it. -/
theorem C10_recomputed_end (duration : Nat) (s : Int) (b b2 : Booking)
    (h : b.start_time = b2.start_time) :
    slotConflicts duration s b = slotConflicts duration s b2 ∧
    slotConflicts 30 630 longBooking = false ∧
    intervalsOverlap longBooking.start_time longBooking.end_time 630 660 = true :=
  ⟨by simp [slotConflicts, h], by decide, by decide⟩

/-- C10 witness: the recomputed-end conflict test at the concrete booking. -/
theorem C10_recomputed_end_witness :
    slotConflicts 30 630 longBooking = slotConflicts 30 630 longBooking ∧
    slotConflicts 30 630 longBooking = false ∧
    intervalsOverlap longBooking.start_time longBooking.end_time 630 660 = true :=
  C10_recomputed_end 30 630 longBooking longBooking rfl

theorem createConflict_iff (barber_id : Nat) (s e : Int) (b : Booking) :
    createConflict barber_id s e b = true ↔
      b.barber_id = barber_id ∧ b.status = "confirmed" ∧
        intervalsOverlap b.start_time b.end_time s e = true := by
  simp [createConflict, intervalsOverlap]
  tauto

/-- C2 amended: given the service resolves, `create_booking` fails with the
slot-conflict error iff some stored booking of the same barber whose status
is `"confirmed"` (pending does not block) overlaps
`[start, start + duration)`; and any failure leaves the store unchanged. -/
theorem C2_amended_conflict (services : List Service) (store : List Booking)
    (new_id : Nat) (req : BookingRequest) (svc : Service)
    (hsvc : findService services req.service_id = some svc) :
    ((create_booking services store new_id req =
        Except.error "This time slot is already booked") ↔
      ∃ b ∈ store, b.barber_id = req.barber_id ∧ b.status = "confirmed" ∧
        intervalsOverlap b.start_time b.end_time req.start_time
          (req.start_time + (svc.duration : Int)) = true) ∧
    ∀ msg, create_booking services store new_id req = Except.error msg →
      applyOp services store (BookingOp.create new_id req) = store := by
  constructor
  · simp only [create_booking, hsvc]
    cases hc : store.find? (createConflict req.barber_id req.start_time
        (req.start_time + (svc.duration : Int))) with
    | some b =>
        simp only [hc]
        constructor
        · intro _
          exact ⟨b, List.mem_of_find?_eq_some hc,
            (createConflict_iff _ _ _ b).mp (List.find?_some hc)⟩
        · intro _
          trivial
    | none =>
        simp only [hc]
        constructor
        · intro h
          cases h
        · rintro ⟨b, hb, hprops⟩
          exact absurd ((createConflict_iff _ _ _ b).mpr hprops)
            (List.find?_eq_none.mp hc b hb)
  · intro msg hmsg
    simp [applyOp, hmsg]

/-- C2 amended witness: one confirmed booking on `[600, 630)` makes the
request for 600 fail, and the failure leaves the store unchanged. -/
theorem C2_amended_witness :
    ((create_booking [demoService] [confirmedBooking] 2 ⟨1, 1, 600⟩ =
        Except.error "This time slot is already booked") ↔
      ∃ b ∈ [confirmedBooking], b.barber_id = 1 ∧ b.status = "confirmed" ∧
        intervalsOverlap b.start_time b.end_time 600
          (600 + (demoService.duration : Int)) = true) ∧
    ∀ msg, create_booking [demoService] [confirmedBooking] 2 ⟨1, 1, 600⟩ =
        Except.error msg →
      applyOp [demoService] [confirmedBooking] (BookingOp.create 2 ⟨1, 1, 600⟩)
        = [confirmedBooking] :=
  C2_amended_conflict [demoService] [confirmedBooking] 2 ⟨1, 1, 600⟩ demoService rfl

/-- C2 counterexample: a pending booking of the same barber overlaps the
requested interval `[600, 630)`, yet `create_booking` succeeds: the conflict
filter only matches status `"confirmed"`. -/
theorem C2_counterexample :
    (∃ b ∈ [pendingBooking], isActive b = true ∧ b.barber_id = 1 ∧
      intervalsOverlap b.start_time b.end_time 600 630 = true) ∧
    (create_booking [demoService] [pendingBooking] 2 ⟨1, 1, 600⟩).toOption.isSome
      = true := by decide

/-- C3 counterexample: the store holds a single completed booking — no
active (pending/confirmed) booking at all — yet the overlapping slot
`[600, 660)` is reported unavailable, because `is_slot_available` blocks on
every status other than cancelled and rejected. -/
theorem C3_counterexample :
    is_slot_available 1 600 660 [completedBooking] = false ∧
    ∀ b ∈ [completedBooking], isActive b = false := by decide

theorem blocksSlot_iff (worker_id : Nat) (s e : Int) (b : Booking) :
    blocksSlot worker_id s e b = true ↔
      b.barber_id = worker_id ∧ b.status ≠ "cancelled" ∧ b.status ≠ "rejected" ∧
        intervalsOverlap b.start_time b.end_time s e = true := by
  simp [blocksSlot, intervalsOverlap]
  tauto

/-- C3 amended: a slot is flagged available iff no booking of that barber
whose status is other than `"cancelled"` or `"rejected"` overlaps it — so
pending, confirmed AND completed bookings all block — and no past-time
filter is applied anywhere in this read model. -/
theorem C3_amended_blocking (worker_id : Nat) (s e : Int) (store : List Booking) :
    is_slot_available worker_id s e store = true ↔
      ∀ b ∈ store, b.barber_id = worker_id → b.status ≠ "cancelled" →
        b.status ≠ "rejected" →
        intervalsOverlap b.start_time b.end_time s e = false := by
  unfold is_slot_available
  rw [Option.isNone_iff_eq_none, List.find?_eq_none]
  constructor
  · intro h b hb hbar hc hr
    have hall := h b hb
    rw [blocksSlot_iff] at hall
    cases hov : intervalsOverlap b.start_time b.end_time s e with
    | false => rfl
    | true => exact absurd ⟨hbar, hc, hr, hov⟩ hall
  · intro h b hb hblock
    rw [blocksSlot_iff] at hblock
    obtain ⟨hbar, hc, hr, hov⟩ := hblock
    have hfalse := h b hb hbar hc hr
    rw [hfalse] at hov
    cases hov

theorem create_booking_ne_time_error (services : List Service)
    (store : List Booking) (new_id : Nat) (req : BookingRequest) :
    create_booking services store new_id req ≠
      Except.error "Booking time must be in the future" := by
  unfold create_booking
  split
  · intro h
    injection h with h2
    exact absurd h2 (by decide)
  · split
    · intro h
      injection h with h2
      exact absurd h2 (by decide)
    · exact fun h => Except.noConfusion h

/-- C8 amended: given the service resolves for the barber, the router
rejects with the past-time error iff `start_time < now` — a start strictly
in the past; a start equal to the current instant is accepted. -/
theorem C8_amended_strict_past (services : List Service) (store : List Booking)
    (new_id : Nat) (req : BookingRequest) (now : Int) (svc : Service)
    (hsvc : findBarberService services req.service_id req.barber_id = some svc) :
    (create_new_booking services store new_id req now =
        Except.error "Booking time must be in the future") ↔
      req.start_time < now := by
  simp only [create_new_booking, hsvc]
  by_cases h : req.start_time < now
  · simp [h]
  · simp [h, create_booking_ne_time_error services store new_id req]

/-- C8 amended witness: a request 50 minutes before `now = 100` is
rejected as past. -/
theorem C8_amended_witness :
    (create_new_booking [demoService] [] 1 ⟨1, 1, 50⟩ 100 =
        Except.error "Booking time must be in the future") ↔
      (50 : Int) < 100 :=
  C8_amended_strict_past [demoService] [] 1 ⟨1, 1, 50⟩ 100 demoService rfl

theorem cancelFirst_forall2 (store : List Booking) (booking_id : Nat) :
    List.Forall₂ (fun x y => x = y ∨ x = setCancelled y)
      (cancelFirst store booking_id) store := by
  induction store with
  | nil => exact List.Forall₂.nil
  | cons b rest ih =>
      unfold cancelFirst
      split
      · exact List.Forall₂.cons (Or.inr rfl)
          (List.forall₂_same.mpr (fun x _ => Or.inl rfl))
      · exact List.Forall₂.cons (Or.inl rfl) ih

/-- C9 amended: when the id resolves, `cancel_booking` returns the booking
with status overwritten to `"cancelled"` — regardless of the previous
status, including completed — with `start_time` and `end_time` unchanged,
and every store row is either untouched or so cancelled. -/
theorem C9_amended_unconditional (store : List Booking) (booking_id : Nat)
    (b : Booking)
    (hfind : store.find? (fun x => x.id == booking_id) = some b) :
    (cancel_booking store booking_id).1 = some (setCancelled b) ∧
    (setCancelled b).status = "cancelled" ∧
    (setCancelled b).start_time = b.start_time ∧
    (setCancelled b).end_time = b.end_time ∧
    List.Forall₂ (fun x y => x = y ∨ x = setCancelled y)
      ((cancel_booking store booking_id).2) store := by
  refine ⟨?_, rfl, rfl, rfl, ?_⟩
  · simp [cancel_booking, hfind]
  · simp only [cancel_booking, hfind]
    exact cancelFirst_forall2 store booking_id

/-- C9 amended witness: cancelling the completed booking. -/
theorem C9_amended_witness :
    (cancel_booking [completedBooking] 1).1 = some (setCancelled completedBooking) ∧
    (setCancelled completedBooking).status = "cancelled" ∧
    (setCancelled completedBooking).start_time = completedBooking.start_time ∧
    (setCancelled completedBooking).end_time = completedBooking.end_time ∧
    List.Forall₂ (fun x y => x = y ∨ x = setCancelled y)
      ((cancel_booking [completedBooking] 1).2) [completedBooking] :=
  C9_amended_unconditional [completedBooking] 1 completedBooking rfl

/-- C5 counterexample: on Monday 09:00-17:00 with a 30-minute service the
`get_available_times` endpoint emits the candidate 17:00 (minute 1020) whose
end 17:30 exceeds the working-hours end: the last candidate is not
excluded there. -/
theorem C5_counterexample :
    1020 ∈ get_available_times [] [mondayRule] 1 30 0 0 0 ∧
    ¬(1020 + 30 ≤ mondayRule.end_time) := by decide

theorem gtsLoop_sound (end_minutes service_duration slot_interval : Nat) :
    ∀ fuel current t,
      t ∈ gtsLoop fuel current end_minutes service_duration slot_interval →
      (∃ k, t = current + k * slot_interval) ∧
        t + service_duration ≤ end_minutes := by
  intro fuel
  induction fuel with
  | zero => intro current t ht; cases ht
  | succ f ih =>
      intro current t ht
      simp only [gtsLoop] at ht
      split at ht
      next hcond =>
        rcases List.mem_cons.mp ht with rfl | hmem
        · exact ⟨⟨0, by simp⟩, hcond⟩
        · obtain ⟨⟨k, hk⟩, hb⟩ := ih (current + slot_interval) t hmem
          refine ⟨⟨k + 1, ?_⟩, hb⟩
          rw [hk, Nat.succ_mul]
          omega
      next => cases ht

theorem gtsLoop_complete (end_minutes service_duration slot_interval : Nat) :
    ∀ k fuel current,
      current + k * slot_interval + service_duration ≤ end_minutes →
      k < fuel →
      current + k * slot_interval ∈
        gtsLoop fuel current end_minutes service_duration slot_interval := by
  intro k
  induction k with
  | zero =>
      intro fuel current hle hlt
      cases fuel with
      | zero => exact absurd hlt (by omega)
      | succ f =>
          simp only [gtsLoop, Nat.zero_mul, Nat.add_zero] at hle ⊢
          rw [if_pos hle]
          exact List.mem_cons_self _ _
  | succ k ih =>
      intro fuel current hle hlt
      cases fuel with
      | zero => exact absurd hlt (by omega)
      | succ f =>
          have heq : current + (k + 1) * slot_interval =
              current + slot_interval + k * slot_interval := by
            rw [Nat.succ_mul]
            omega
          simp only [gtsLoop]
          rw [if_pos]
          · refine List.mem_cons_of_mem _ ?_
            rw [heq] at hle ⊢
            exact ih f (current + slot_interval) hle (by omega)
          · rw [heq] at hle
            exact le_trans
              (Nat.add_le_add_right (Nat.le_add_right current slot_interval) _)
              (le_trans (Nat.add_le_add_right (Nat.le_add_right _ _) _) hle)

theorem gtsLoop_lower_bound (end_minutes service_duration slot_interval : Nat) :
    ∀ fuel current t,
      t ∈ gtsLoop fuel current end_minutes service_duration slot_interval →
      current ≤ t := by
  intro fuel
  induction fuel with
  | zero => intro current t ht; cases ht
  | succ f ih =>
      intro current t ht
      simp only [gtsLoop] at ht
      split at ht
      · rcases List.mem_cons.mp ht with rfl | hmem
        · exact Nat.le_refl _
        · exact le_trans (Nat.le_add_right _ slot_interval)
            (ih _ t hmem)
      · cases ht

theorem gtsLoop_sorted (end_minutes service_duration slot_interval : Nat)
    (hstep : 0 < slot_interval) :
    ∀ fuel current,
      List.Pairwise (fun a b => a < b)
        (gtsLoop fuel current end_minutes service_duration slot_interval) := by
  intro fuel
  induction fuel with
  | zero => intro current; exact List.Pairwise.nil
  | succ f ih =>
      intro current
      simp only [gtsLoop]
      split
      · refine List.pairwise_cons.mpr ⟨?_, ih (current + slot_interval)⟩
        intro t ht
        have hlb := gtsLoop_lower_bound end_minutes service_duration
          slot_interval f (current + slot_interval) t ht
        omega
      · exact List.Pairwise.nil

/-- C5 amended: `generate_time_slots` itself does return, in strictly
ascending order, exactly the times `t = workStart + k * step` with
`t + duration ≤ workEnd` — but the `get_available_times` caller does not
route through it and emits a final candidate whose end exceeds the
working-hours end (see the counterexample). -/
theorem C5_amended_slot_starts
    (start_time end_time service_duration slot_interval : Nat)
    (hstep : 0 < slot_interval) :
    (∀ t, t ∈ generate_time_slots start_time end_time service_duration
          slot_interval ↔
        ((∃ k, t = start_time + k * slot_interval) ∧
          t + service_duration ≤ end_time)) ∧
    List.Pairwise (fun a b => a < b)
      (generate_time_slots start_time end_time service_duration slot_interval) := by
  constructor
  · intro t
    constructor
    · exact gtsLoop_sound end_time service_duration slot_interval _ start_time t
    · rintro ⟨⟨k, rfl⟩, hb⟩
      apply gtsLoop_complete end_time service_duration slot_interval k _
        start_time hb
      have hk : k ≤ k * slot_interval := by
        have h1 : k * 1 ≤ k * slot_interval := Nat.mul_le_mul_left k hstep
        simpa using h1
      revert hb hk
      generalize k * slot_interval = K
      intro hb hk
      omega
  · exact gtsLoop_sorted end_time service_duration slot_interval hstep _
      start_time

/-- C5 amended witness: working hours 09:00-17:00, duration 30, step 15. -/
theorem C5_amended_witness :
    (∀ t, t ∈ generate_time_slots 540 1020 30 15 ↔
      ((∃ k, t = 540 + k * 15) ∧ t + 30 ≤ 1020)) ∧
    List.Pairwise (fun a b => a < b) (generate_time_slots 540 1020 30 15) :=
  C5_amended_slot_starts 540 1020 30 15 (by decide)

/-- C6 counterexample: with one pending booking on `[600, 630)` the grid
read model marks 600 and 615 unavailable (pending blocks), while the crud
filtered list returns all three candidates (only confirmed blocks): the two
read models diverge. -/
theorem C6_counterexample :
    ((slots_get_available_slots [pendingBooking] [shortRule] 1 30 0 0).filterMap
        (fun s => if s.2.2 = true then some s.1 else none)) ≠
      crud_get_available_slots [pendingBooking] [shortRule] 1 30 0 0 := by decide

theorem crudFilter_iff (worker_id : Nat) (dayStart : Int) (b : Booking) :
    (b.barber_id == worker_id && decide (dayStart ≤ b.start_time) &&
        decide (b.start_time ≤ dayStart + 1439) && b.status == "confirmed")
        = true ↔
      b.barber_id = worker_id ∧ dayStart ≤ b.start_time ∧
        b.start_time ≤ dayStart + 1439 ∧ b.status = "confirmed" := by
  simp
  tauto

theorem grid_crud_avail_eq (store : List Booking) (worker_id : Nat)
    (dayStart : Int) (duration : Nat)
    (h1 : CreatedStatuses store)
    (h2 : ∀ b ∈ store, dayStart ≤ b.start_time ∧ b.start_time ≤ dayStart + 1439)
    (s : Int) :
    is_slot_available worker_id s (s + (duration : Int)) store =
      (crudDayBookings store worker_id dayStart).all (fun b =>
        !(s < b.end_time && s + (duration : Int) > b.start_time)) := by
  rw [Bool.eq_iff_iff]
  unfold is_slot_available
  rw [Option.isNone_iff_eq_none, List.find?_eq_none, List.all_eq_true]
  constructor
  · intro h b hb
    unfold crudDayBookings at hb
    simp only [List.mem_filter] at hb
    obtain ⟨hmem, hp⟩ := hb
    rw [crudFilter_iff] at hp
    obtain ⟨hbar, hw1, hw2, hst⟩ := hp
    have hblock := h b hmem
    rw [blocksSlot_iff] at hblock
    have hov : ¬(intervalsOverlap b.start_time b.end_time s
        (s + (duration : Int)) = true) := fun hovt =>
      hblock ⟨hbar, by rw [hst]; decide, by rw [hst]; decide, hovt⟩
    simp [intervalsOverlap] at hov
    simp
    omega
  · intro h b hb hblock
    rw [blocksSlot_iff] at hblock
    obtain ⟨hbar, hnc, hnr, hov⟩ := hblock
    rcases h1 b hb with hst | hst
    · have hw := h2 b hb
      have hall := h b (by
        unfold crudDayBookings
        simp only [List.mem_filter]
        exact ⟨hb, (crudFilter_iff worker_id dayStart b).mpr
          ⟨hbar, hw.1, hw.2, hst⟩⟩)
      simp [intervalsOverlap] at hov
      simp at hall
      omega
    · exact hnc hst

theorem gts_crud_loop_align (bookings : List Booking) (dayStart : Int)
    (duration : Nat) (end_minutes : Nat) :
    ∀ fuel current_minutes,
      ((gtsLoop fuel current_minutes end_minutes duration 15).filterMap
        (fun (t : Nat) =>
          if (bookings.all (fun b =>
              !(dayStart + (t : Int) < b.end_time &&
                dayStart + (t : Int) + (duration : Int) > b.start_time))) = true
          then some (dayStart + (t : Int)) else none)) =
      crudSlotLoop fuel (dayStart + (current_minutes : Int))
        (dayStart + (end_minutes : Int)) (duration : Int) bookings := by
  intro fuel
  induction fuel with
  | zero => intro c; rfl
  | succ f ih =>
      intro c
      have hcast : dayStart + ((c + 15 : Nat) : Int) = dayStart + (c : Int) + 15 := by
        push_cast
        ring
      simp only [gtsLoop, crudSlotLoop]
      by_cases hc : c + duration ≤ end_minutes
      · rw [if_pos hc, if_pos (by push_cast; omega)]
        rw [List.filterMap_cons]
        by_cases hav : (bookings.all (fun b =>
            !(dayStart + (c : Int) < b.end_time &&
              dayStart + (c : Int) + (duration : Int) > b.start_time))) = true
        · rw [if_pos hav, if_pos hav]
          simp only [List.cons_append, List.nil_append]
          rw [← hcast]
          exact congrArg (List.cons _) (ih (c + 15))
        · rw [if_neg hav, if_neg hav]
          simp only [List.nil_append]
          rw [← hcast]
          exact ih (c + 15)
      · rw [if_neg hc, if_neg (by push_cast; omega)]
        rfl

/-- C6 amended: the boolean grid of `slots.get_available_slots`, filtered to
its available entries, agrees with the filtered list of
`crud_booking.get_available_slots` whenever every stored booking has status
`"confirmed"` or `"cancelled"` and starts within the queried day; outside
those conditions (pending/completed/rejected rows, or rows of another day)
the two read models diverge, as does the 30-minute-step
`get_available_times` endpoint (see the counterexample). -/
theorem C6_amended_agreement (store : List Booking) (rules : List WorkingHours)
    (worker_id duration day_of_week : Nat) (dayStart : Int)
    (h1 : CreatedStatuses store)
    (h2 : ∀ b ∈ store, dayStart ≤ b.start_time ∧ b.start_time ≤ dayStart + 1439) :
    ((slots_get_available_slots store rules worker_id duration day_of_week
        dayStart).filterMap (fun s => if s.2.2 = true then some s.1 else none)) =
      crud_get_available_slots store rules worker_id duration day_of_week
        dayStart := by
  unfold slots_get_available_slots crud_get_available_slots
  cases hr : findWorkingRule rules worker_id day_of_week with
  | none => rfl
  | some wh =>
      rw [List.filterMap_map]
      simp only [Function.comp_def]
      simp only [grid_crud_avail_eq store worker_id dayStart duration h1 h2]
      exact gts_crud_loop_align (crudDayBookings store worker_id dayStart)
        dayStart duration wh.end_time (wh.end_time + 1 - wh.start_time)
        wh.start_time

/-- C6 amended witness: one confirmed in-day booking, Monday 10:00-11:00. -/
theorem C6_amended_witness :
    ((slots_get_available_slots [confirmedBooking] [shortRule] 1 30 0 0).filterMap
        (fun s => if s.2.2 = true then some s.1 else none)) =
      crud_get_available_slots [confirmedBooking] [shortRule] 1 30 0 0 :=
  C6_amended_agreement [confirmedBooking] [shortRule] 1 30 0 0
    (by unfold CreatedStatuses; decide) (by decide)

/-- C7 counterexample: Monday 09:00-17:00, 30-minute service, no bookings:
the step-30 endpoint returns 17 candidates, not 16, and the candidate 17:00
(minute 1020) is among them. -/
theorem C7_counterexample :
    (get_available_times [] [mondayRule] 1 30 0 1440 0).length ≠ 16 ∧
    1020 ∈ get_available_times [] [mondayRule] 1 30 0 1440 0 := by decide

/-- C7 amended: the scenario returns 17 slots, 09:00 through 17:00 inclusive
on the half hour, all available. -/
theorem C7_amended_seventeen :
    get_available_times [] [mondayRule] 1 30 0 1440 0 =
      [540, 570, 600, 630, 660, 690, 720, 750, 780, 810, 840, 870, 900, 930,
        960, 990, 1020] := by decide

/-- C8 counterexample: a request whose start equals the current instant is
accepted (the router only rejects `start_time < now`), although the claim
demands rejection of any start not strictly in the future. -/
theorem C8_counterexample :
    (create_new_booking [demoService] [] 1 ⟨1, 1, 100⟩ 100).toOption.isSome
        = true ∧
    ¬((100 : Int) > 100) := by decide

/-- C9 counterexample: cancelling a completed booking neither fails nor
leaves the record unchanged: the status is overwritten to `"cancelled"`. -/
theorem C9_counterexample :
    (cancel_booking [completedBooking] 1).1.isSome = true ∧
    (cancel_booking [completedBooking] 1).2 ≠ [completedBooking] ∧
    (cancel_booking [completedBooking] 1).2 =
      [⟨1, 1, 1, 600, 630, "cancelled"⟩] := by decide

end Aponti
